import Mathlib

/-!
Shallow embedding of the HTTP resource handlers of
src/locallibrary/locallibrary/api.py (a Django Ninja CRUD API for a
library catalog), together with proofs settling the frozen claims about
its specification.

The persistent store is modelled as association lists keyed by the
server-assigned integer primary keys (and, for book instances, by the
canonical textual form of the 128-bit unique token).  Dates are modelled
as abstract day codes (Nat).  Each handler is a pure function from the
store and the request payload to an HTTP-style result paired with the
store after the request; Python mutation of ORM objects followed by
.save() becomes explicit record update plus a write-back into the
association list.
-/

namespace LocalLibrary

/-- Catalog Author row: first_name, last_name, optional dates. -/
structure Author where
  first_name : String
  last_name : String
  date_of_birth : Option Nat := none
  date_of_death : Option Nat := none
deriving DecidableEq

/-- Catalog Genre row. -/
structure Genre where
  name : String
deriving DecidableEq

/-- Catalog Language row. -/
structure Language where
  name : String
deriving DecidableEq

/-- Catalog Book row: scalar fields plus optional author and language
foreign keys (stored as ids) and the many-to-many genre link set
(stored as the list of linked genre ids, insertion ordered, no
duplicates are ever created by the link-adding operation). -/
structure Book where
  title : String
  summary : String
  isbn : String
  author : Option Nat := none
  language : Option Nat := none
  genre : List Nat := []
deriving DecidableEq

/-- Catalog BookInstance row (its unique-token id is the key under
which it is stored, so it is not repeated inside the record). -/
structure BookInstance where
  book : Nat
  imprint : String
  due_back : Option Nat := none
  borrower : Option Nat := none
  status : String := "a"
deriving DecidableEq

/-- External identity record: credentials held by the identity store. -/
structure UserRec where
  username : String
  password : String
deriving DecidableEq

/-- The relational store: one association list per record kind. -/
structure Store where
  authors : List (Nat × Author) := []
  genres : List (Nat × Genre) := []
  languages : List (Nat × Language) := []
  books : List (Nat × Book) := []
  bookinstances : List (String × BookInstance) := []
  users : List (Nat × UserRec) := []
deriving DecidableEq

/-- Lookup by key in an association list (ORM .objects.get). -/
def getAssoc {κ α : Type} [DecidableEq κ] : List (κ × α) → κ → Option α
  | [], _ => none
  | (k', v) :: rest, k => if k' = k then some v else getAssoc rest k

/-- Write a row under a key, replacing an existing row (ORM .save). -/
def setAssoc {κ α : Type} [DecidableEq κ] : List (κ × α) → κ → α → List (κ × α)
  | [], k, v => [(k, v)]
  | (k', v') :: rest, k, v =>
      if k' = k then (k, v) :: rest else (k', v') :: setAssoc rest k v

theorem getAssoc_setAssoc_self {κ α : Type} [DecidableEq κ]
    (l : List (κ × α)) (k : κ) (v : α) :
    getAssoc (setAssoc l k v) k = some v := by
  induction l with
  | nil => simp [getAssoc, setAssoc]
  | cons hd tl ih =>
      obtain ⟨k', v'⟩ := hd
      by_cases h : k' = k <;> simp [getAssoc, setAssoc, h, ih]

theorem setAssoc_setAssoc_self {κ α : Type} [DecidableEq κ]
    (l : List (κ × α)) (k : κ) (v w : α) :
    setAssoc (setAssoc l k v) k w = setAssoc l k w := by
  induction l with
  | nil => simp [setAssoc]
  | cons hd tl ih =>
      obtain ⟨k', v'⟩ := hd
      by_cases h : k' = k <;> simp [setAssoc, h, ih]

/-- HTTP-style handler outcome: success status with a body, or a
failure status with an error message. -/
inductive ApiOut (α : Type) where
  | success (status : Nat) (body : α)
  | failure (status : Nat) (message : String)
deriving DecidableEq

/-- The HTTP status of an outcome. -/
def respStatus {α : Type} : ApiOut α → Nat
  | .success c _ => c
  | .failure c _ => c

/-- Hex digit test for the canonical token format. -/
def isHexChar (c : Char) : Bool :=
  ('0' ≤ c && c ≤ '9') || ('a' ≤ c && c ≤ 'f') || ('A' ≤ c && c ≤ 'F')

/-- Character admissible at position i of a canonical token
(hyphens at 8, 13, 18, 23; hex digits elsewhere). -/
def uuidSlotOk (i : Nat) (c : Char) : Bool :=
  if i = 8 || i = 13 || i = 18 || i = 23 then c = '-' else isHexChar c

def uuidCharsOk : Nat → List Char → Bool
  | _, [] => true
  | i, c :: rest => uuidSlotOk i c && uuidCharsOk (i + 1) rest

/-- Canonical hyphenated textual form of the 128-bit unique token. -/
def isCanonicalUUID (s : String) : Bool :=
  s.length = 36 && uuidCharsOk 0 s.data

/-- Modelled from the spec: the unique-token value type with explicit
parse of the canonical textual form (Python uuid.UUID on the canonical
hyphenated serialization, which is how instance ids are rendered); a
canonical string is its own token value, a non-canonical string fails
to parse. -/
def parseUUID (s : String) : Option String :=
  if isCanonicalUUID s then some s else none

/-- Merge-patch of the Author scalar fields: each field in the payload
that is present overwrites, each absent field is left alone (the chain
of if-not-None assignments of update_author). -/
def authorApplyPatch (a : Author) (p_first p_last : Option String)
    (p_birth p_death : Option Nat) : Author :=
  let a1 := match p_first with | none => a | some v => { a with first_name := v }
  let a2 := match p_last with | none => a1 | some v => { a1 with last_name := v }
  let a3 := match p_birth with | none => a2 | some v => { a2 with date_of_birth := some v }
  match p_death with | none => a3 | some v => { a3 with date_of_death := some v }

/-- PUT /authors/{author_id} payload. -/
structure AuthorUpdateSchema where
  first_name : Option String := none
  last_name : Option String := none
  date_of_birth : Option Nat := none
  date_of_death : Option Nat := none
deriving DecidableEq

/-- PUT /authors/{author_id}: fetch, merge-patch present fields, save. -/
def update_author (s : Store) (author_id : Nat) (p : AuthorUpdateSchema) :
    ApiOut Author × Store :=
  match getAssoc s.authors author_id with
  | none => (.failure 404 ("Author not found"), s)
  | some a0 =>
      let a := authorApplyPatch a0 p.first_name p.last_name p.date_of_birth p.date_of_death
      (.success 200 a, { s with authors := setAssoc s.authors author_id a })

theorem authorApplyPatch_frame (a : Author) (pf pl : Option String)
    (pb pd : Option Nat) :
    (pf = none → (authorApplyPatch a pf pl pb pd).first_name = a.first_name) ∧
    (pl = none → (authorApplyPatch a pf pl pb pd).last_name = a.last_name) ∧
    (pb = none → (authorApplyPatch a pf pl pb pd).date_of_birth = a.date_of_birth) ∧
    (pd = none → (authorApplyPatch a pf pl pb pd).date_of_death = a.date_of_death) := by
  cases pf <;> cases pl <;> cases pb <;> cases pd <;>
    simp [authorApplyPatch]

/-- PUT /genres/{genre_id} payload. -/
structure GenreUpdateSchema where
  name : Option String := none
deriving DecidableEq

/-- PUT /genres/{genre_id}: fetch, patch name if present, save. -/
def update_genre (s : Store) (genre_id : Nat) (p : GenreUpdateSchema) :
    ApiOut Genre × Store :=
  match getAssoc s.genres genre_id with
  | none => (.failure 404 ("Genre not found"), s)
  | some g0 =>
      let g := match p.name with | none => g0 | some v => { g0 with name := v }
      (.success 200 g, { s with genres := setAssoc s.genres genre_id g })

/-- PUT /languages/{language_id} payload. -/
structure LanguageUpdateSchema where
  name : Option String := none
deriving DecidableEq

/-- PUT /languages/{language_id}: fetch, patch name if present, save. -/
def update_language (s : Store) (language_id : Nat) (p : LanguageUpdateSchema) :
    ApiOut Language × Store :=
  match getAssoc s.languages language_id with
  | none => (.failure 404 ("Language not found"), s)
  | some l0 =>
      let l := match p.name with | none => l0 | some v => { l0 with name := v }
      (.success 200 l, { s with languages := setAssoc s.languages language_id l })

/-- POST /books payload. -/
structure BookCreateSchema where
  title : String
  summary : String
  isbn : String
  author_id : Option Nat := none
  language_id : Option Nat := none
  genre_ids : List Nat := []
deriving DecidableEq

/-- PUT /books/{book_id} payload. -/
structure BookUpdateSchema where
  title : Option String := none
  summary : Option String := none
  isbn : Option String := none
  author_id : Option Nat := none
  language_id : Option Nat := none
  genre_ids : Option (List Nat) := none
deriving DecidableEq

/-- Many-to-many link add (book.genre.add): inserts the genre id as set
membership, a no-op when the link already exists. -/
def genreAdd (l : List Nat) (g : Nat) : List Nat :=
  if g ∈ l then l else l ++ [g]

theorem mem_genreAdd (l : List Nat) (g x : Nat) :
    x ∈ genreAdd l g ↔ x ∈ l ∨ x = g := by
  by_cases h : g ∈ l
  · simp [genreAdd, h]
    rintro rfl
    exact h
  · simp [genreAdd, h]

/-- The genre-linking loop shared by create_book and update_book: for
each id in order, look the Genre up; an unresolved id aborts with 400
naming it, leaving the store as mutated so far; each resolved id is
linked and the book row saved.  code is the success status to emit
(201 for create, 200 for update). -/
def addGenreList (code : Nat) (s : Store) (bid : Nat) (b : Book) :
    List Nat → ApiOut Book × Store
  | [] => (.success code b, s)
  | g :: rest =>
      match getAssoc s.genres g with
      | none => (.failure 400 (("Genre with ID ") ++ toString g ++ (" not found")), s)
      | some _ =>
          let b' := { b with genre := genreAdd b.genre g }
          addGenreList code { s with books := setAssoc s.books bid b' } bid b' rest

/-- Foreign-key resolution on create: Python truthiness of the
payload field, so both a missing field and the value 0 skip the
lookup and leave the reference null; any other id must resolve or the
operation fails naming the id and kind. -/
def fkCreate {α : Type} (table : List (Nat × α)) (oid : Option Nat)
    (kind : String) : Except String (Option Nat) :=
  match oid with
  | none => .ok none
  | some n =>
      if n = 0 then .ok none
      else match getAssoc table n with
        | none => .error (kind ++ (" with ID ") ++ toString n ++ (" not found"))
        | some _ => .ok (some n)

/-- Foreign-key resolution on update: an is-not-None test, so a missing
field keeps the old reference while any present id (0 included) must
resolve or the operation fails naming the id and kind. -/
def fkStep {α : Type} (table : List (Nat × α)) (oid : Option Nat)
    (old : Option Nat) (kind : String) : Except String (Option Nat) :=
  match oid with
  | none => .ok old
  | some n =>
      match getAssoc table n with
      | none => .error (kind ++ (" with ID ") ++ toString n ++ (" not found"))
      | some _ => .ok (some n)

/-- POST /books: resolve author and language (truthy ids only), save
the new row under the store-assigned fresh id, then run the
genre-linking loop; note the row is saved before genre resolution, so
a failing genre id leaves the row (and earlier links) behind. -/
def create_book (s : Store) (fresh_id : Nat) (p : BookCreateSchema) :
    ApiOut Book × Store :=
  match fkCreate s.authors p.author_id ("Author") with
  | .error m => (.failure 400 m, s)
  | .ok a =>
      match fkCreate s.languages p.language_id ("Language") with
      | .error m => (.failure 400 m, s)
      | .ok l =>
          let b : Book := { title := p.title, summary := p.summary, isbn := p.isbn,
                            author := a, language := l, genre := [] }
          let s1 := { s with books := setAssoc s.books fresh_id b }
          if p.genre_ids.isEmpty then (.success 201 b, s1)
          else addGenreList 201 s1 fresh_id b p.genre_ids

/-- Merge-patch of the Book scalar fields (title, summary, isbn). -/
def bookApplyScalars (b : Book) (pt ps pi : Option String) : Book :=
  let b1 := match pt with | none => b | some v => { b with title := v }
  let b2 := match ps with | none => b1 | some v => { b1 with summary := v }
  match pi with | none => b2 | some v => { b2 with isbn := v }

/-- PUT /books/{book_id}: fetch, patch scalars, resolve present
author_id and language_id (failure before any save leaves the store
untouched), save, then if genre_ids is present clear the links and run
the genre-linking loop; if absent, the links are untouched. -/
def update_book (s : Store) (book_id : Nat) (p : BookUpdateSchema) :
    ApiOut Book × Store :=
  match getAssoc s.books book_id with
  | none => (.failure 404 ("Book not found"), s)
  | some b0 =>
      let b3 := bookApplyScalars b0 p.title p.summary p.isbn
      match fkStep s.authors p.author_id b3.author ("Author") with
      | .error m => (.failure 400 m, s)
      | .ok na =>
          let b4 := { b3 with author := na }
          match fkStep s.languages p.language_id b4.language ("Language") with
          | .error m => (.failure 400 m, s)
          | .ok nl =>
              let b5 := { b4 with language := nl }
              let s1 := { s with books := setAssoc s.books book_id b5 }
              match p.genre_ids with
              | none => (.success 200 b5, s1)
              | some gids =>
                  let b6 := { b5 with genre := [] }
                  let s2 := { s1 with books := setAssoc s1.books book_id b6 }
                  addGenreList 200 s2 book_id b6 gids

/-- POST /bookinstances payload. -/
structure BookInstanceCreateSchema where
  book_id : Nat
  imprint : String
  due_back : Option Nat := none
  borrower_id : Option Nat := none
  status : String := "a"
deriving DecidableEq

/-- PUT /bookinstances/{instance_id} payload. -/
structure BookInstanceUpdateSchema where
  book_id : Option Nat := none
  imprint : Option String := none
  due_back : Option Nat := none
  borrower_id : Option Nat := none
  status : Option String := none
deriving DecidableEq

/-- GET /bookinstances/{instance_id}: a malformed token and a token of
no stored instance are both reported as 404. -/
def get_bookinstance (s : Store) (instance_id : String) : ApiOut BookInstance :=
  match parseUUID instance_id with
  | none => .failure 404 ("Invalid UUID format")
  | some uid =>
      match getAssoc s.bookinstances uid with
      | none => .failure 404 ("Book instance not found")
      | some bi => .success 200 bi

/-- POST /bookinstances: the book id must resolve; the borrower id is
resolved with create truthiness (absent or 0 leave it null); the new
row is stored under the generated fresh token. -/
def create_bookinstance (s : Store) (fresh_id : String)
    (p : BookInstanceCreateSchema) : ApiOut BookInstance × Store :=
  match getAssoc s.books p.book_id with
  | none => (.failure 400 (("Book with ID ") ++ toString p.book_id ++ (" not found")), s)
  | some _ =>
      match fkCreate s.users p.borrower_id ("User") with
      | .error m => (.failure 400 m, s)
      | .ok borr =>
          let bi : BookInstance := { book := p.book_id, imprint := p.imprint,
                                     due_back := p.due_back, borrower := borr,
                                     status := p.status }
          (.success 201 bi,
           { s with bookinstances := setAssoc s.bookinstances fresh_id bi })

/-- Book-reference step of update_bookinstance: absent keeps the old
reference, a present id must resolve. -/
def biBookStep (s : Store) (old : Nat) (oid : Option Nat) : Except String Nat :=
  match oid with
  | none => .ok old
  | some n =>
      match getAssoc s.books n with
      | none => .error (("Book with ID ") ++ toString n ++ (" not found"))
      | some _ => .ok n

/-- Borrower step of update_bookinstance: absent keeps the old
borrower, the sentinel 0 clears it, any other id must resolve to a
user. -/
def biBorrowerStep (s : Store) (old : Option Nat) (oid : Option Nat) :
    Except String (Option Nat) :=
  match oid with
  | none => .ok old
  | some n =>
      if n = 0 then .ok none
      else match getAssoc s.users n with
        | none => .error (("User with ID ") ++ toString n ++ (" not found"))
        | some _ => .ok (some n)

/-- Merge-patch of the BookInstance scalar fields
(imprint, due_back, status). -/
def biApplyScalars (bi : BookInstance) (pim : Option String)
    (pdue : Option Nat) (pst : Option String) : BookInstance :=
  let b1 := match pim with | none => bi | some v => { bi with imprint := v }
  let b2 := match pdue with | none => b1 | some v => { b1 with due_back := some v }
  match pst with | none => b2 | some v => { b2 with status := v }

/-- PUT /bookinstances/{instance_id}: a malformed token and a token of
no stored instance are both reported as 404; then the book reference,
the scalar fields and the borrower are merge-patched and the row
saved; a reference that fails to resolve aborts with 400 before the
save. -/
def update_bookinstance (s : Store) (instance_id : String)
    (p : BookInstanceUpdateSchema) : ApiOut BookInstance × Store :=
  match parseUUID instance_id with
  | none => (.failure 404 ("Invalid UUID format"), s)
  | some uid =>
      match getAssoc s.bookinstances uid with
      | none => (.failure 404 ("Book instance not found"), s)
      | some bi0 =>
          match biBookStep s bi0.book p.book_id with
          | .error m => (.failure 400 m, s)
          | .ok nb =>
              let bi4 := biApplyScalars { bi0 with book := nb }
                           p.imprint p.due_back p.status
              match biBorrowerStep s bi4.borrower p.borrower_id with
              | .error m => (.failure 400 m, s)
              | .ok nw =>
                  let bi5 := { bi4 with borrower := nw }
                  (.success 200 bi5,
                   { s with bookinstances := setAssoc s.bookinstances uid bi5 })

/-- The returned state of an instance: available, no due date, no
borrower. -/
def returnedOf (bi : BookInstance) : BookInstance :=
  { bi with status := "a", due_back := none, borrower := none }

/-- The store after mark_returned succeeds on the instance at uid. -/
def markReturnedStore (s : Store) (uid : String) (bi : BookInstance) : Store :=
  { s with bookinstances := setAssoc s.bookinstances uid (returnedOf bi) }

/-- POST /bookinstances/{instance_id}/return: the can_mark_returned
permission is evaluated before the token is parsed or the instance
looked up; then a malformed token and an unknown token are 404; on
success the instance is forced to the returned state and saved. -/
def mark_returned (hasPerm : Bool) (s : Store) (instance_id : String) :
    ApiOut BookInstance × Store :=
  if !hasPerm then
    (.failure 403 ("You don\x27t have permission to mark books as returned"), s)
  else
    match parseUUID instance_id with
    | none => (.failure 404 ("Invalid UUID format"), s)
    | some uid =>
        match getAssoc s.bookinstances uid with
        | none => (.failure 404 ("Book instance not found"), s)
        | some bi => (.success 200 (returnedOf bi), markReturnedStore s uid bi)

/-- Modelled from the spec: Django authenticate against the external
identity store — some user id exactly when the username exists there
and the password matches it. -/
def authenticate (users : List (Nat × UserRec)) (username password : String) :
    Option Nat :=
  match users.find? (fun kv => kv.2.username == username && kv.2.password == password) with
  | none => none
  | some kv => some kv.1

/-- Modelled from the spec: opaque bearer token minting
(ninja.security.create_token is outside this repository). -/
def create_token (uid : Nat) : String :=
  ("token-") ++ toString uid

/-- POST /auth/token: authenticate the credentials; failure is a 401
with a fixed message, success mints a token for the user. -/
def get_token (users : List (Nat × UserRec)) (username password : String) :
    ApiOut String :=
  match authenticate users username password with
  | none => .failure 401 ("Invalid username or password")
  | some uid => .success 200 (create_token uid)

/- Concrete fixtures used by witnesses and counterexamples. -/

def genreFantasy : Genre := { name := "Fantasy" }

def storeC1 : Store := { genres := [(1, genreFantasy)] }

def payloadC1 : BookCreateSchema :=
  { title := "T", summary := "S", isbn := "I", genre_ids := [99] }

def z36 : String := "00000000-0000-0000-0000-000000000000"

def bookW : Book := { title := "B", summary := "S", isbn := "I", genre := [1] }

def biW : BookInstance :=
  { book := 1, imprint := "X", due_back := some 10, borrower := some 5, status := "o" }

def authorW : Author := { first_name := "Jane", last_name := "X" }

def usersW : List (Nat × UserRec) := [(5, { username := "alice", password := "pw" })]

def storeW : Store :=
  { authors := [(1, authorW)],
    genres := [(1, genreFantasy), (2, { name := "Drama" })],
    languages := [(1, { name := "English" })],
    books := [(1, bookW)],
    bookinstances := [(z36, biW)],
    users := usersW }

/- Field lemmas for the merge-patch stages. -/

theorem bookApplyScalars_author (b : Book) (pt ps pn : Option String) :
    (bookApplyScalars b pt ps pn).author = b.author := by
  cases pt <;> cases ps <;> cases pn <;> simp [bookApplyScalars]

theorem bookApplyScalars_language (b : Book) (pt ps pn : Option String) :
    (bookApplyScalars b pt ps pn).language = b.language := by
  cases pt <;> cases ps <;> cases pn <;> simp [bookApplyScalars]

theorem bookApplyScalars_genre (b : Book) (pt ps pn : Option String) :
    (bookApplyScalars b pt ps pn).genre = b.genre := by
  cases pt <;> cases ps <;> cases pn <;> simp [bookApplyScalars]

theorem bookApplyScalars_title (b : Book) (ps pn : Option String) :
    (bookApplyScalars b none ps pn).title = b.title := by
  cases ps <;> cases pn <;> simp [bookApplyScalars]

theorem bookApplyScalars_summary (b : Book) (pt pn : Option String) :
    (bookApplyScalars b pt none pn).summary = b.summary := by
  cases pt <;> cases pn <;> simp [bookApplyScalars]

theorem bookApplyScalars_isbn (b : Book) (pt ps : Option String) :
    (bookApplyScalars b pt ps none).isbn = b.isbn := by
  cases pt <;> cases ps <;> simp [bookApplyScalars]

theorem biApplyScalars_book (bi : BookInstance) (pim : Option String)
    (pdue : Option Nat) (pst : Option String) :
    (biApplyScalars bi pim pdue pst).book = bi.book := by
  cases pim <;> cases pdue <;> cases pst <;> simp [biApplyScalars]

theorem biApplyScalars_borrower (bi : BookInstance) (pim : Option String)
    (pdue : Option Nat) (pst : Option String) :
    (biApplyScalars bi pim pdue pst).borrower = bi.borrower := by
  cases pim <;> cases pdue <;> cases pst <;> simp [biApplyScalars]

theorem biApplyScalars_imprint (bi : BookInstance)
    (pdue : Option Nat) (pst : Option String) :
    (biApplyScalars bi none pdue pst).imprint = bi.imprint := by
  cases pdue <;> cases pst <;> simp [biApplyScalars]

theorem biApplyScalars_due_back (bi : BookInstance)
    (pim : Option String) (pst : Option String) :
    (biApplyScalars bi pim none pst).due_back = bi.due_back := by
  cases pim <;> cases pst <;> simp [biApplyScalars]

theorem biApplyScalars_status (bi : BookInstance)
    (pim : Option String) (pdue : Option Nat) :
    (biApplyScalars bi pim pdue none).status = bi.status := by
  cases pim <;> cases pdue <;> simp [biApplyScalars]

/-- On success the genre-linking loop preserves every non-genre field
of the book and yields exactly the starting links plus the listed
ids (as set membership). -/
theorem addGenreList_success_fields (code : Nat) :
    ∀ (gids : List Nat) (s : Store) (bid : Nat) (b : Book)
      (c : Nat) (b' : Book) (s' : Store),
      addGenreList code s bid b gids = (.success c b', s') →
      b'.title = b.title ∧ b'.summary = b.summary ∧ b'.isbn = b.isbn ∧
      b'.author = b.author ∧ b'.language = b.language ∧
      (∀ g, g ∈ b'.genre ↔ g ∈ b.genre ∨ g ∈ gids) := by
  intro gids
  induction gids with
  | nil =>
      intro s bid b c b' s' h
      simp only [addGenreList, Prod.mk.injEq, ApiOut.success.injEq] at h
      obtain ⟨⟨hc, hb⟩, hs⟩ := h
      subst hb
      simp
  | cons g rest ih =>
      intro s bid b c b' s' h
      simp only [addGenreList] at h
      cases hg : getAssoc s.genres g with
      | none =>
          rw [hg] at h
          simp at h
      | some gg =>
          rw [hg] at h
          simp only at h
          have hf := ih _ _ _ _ _ _ h
          refine ⟨hf.1, hf.2.1, hf.2.2.1, hf.2.2.2.1, hf.2.2.2.2.1, ?_⟩
          intro x
          rw [hf.2.2.2.2.2 x]
          simp [mem_genreAdd]
          tauto

/-- Decomposition of a successful update_bookinstance run: both
reference steps resolved and the resulting row is the merge-patch of
the stored row. -/
theorem update_bookinstance_success_shape (s : Store) (tid uid : String)
    (bi : BookInstance) (p : BookInstanceUpdateSchema) (bi' : BookInstance) (s' : Store)
    (hparse : parseUUID tid = some uid)
    (hfound : getAssoc s.bookinstances uid = some bi)
    (hupd : update_bookinstance s tid p = (.success 200 bi', s')) :
    ∃ nb nw,
      biBookStep s bi.book p.book_id = .ok nb ∧
      biBorrowerStep s bi.borrower p.borrower_id = .ok nw ∧
      bi' = { biApplyScalars { bi with book := nb } p.imprint p.due_back p.status
              with borrower := nw } := by
  unfold update_bookinstance at hupd
  simp only [hparse, hfound] at hupd
  cases hb : biBookStep s bi.book p.book_id with
  | error m =>
      simp only [hb] at hupd
      simp at hupd
  | ok nb =>
      simp only [hb] at hupd
      simp only [biApplyScalars_borrower] at hupd
      cases hw : biBorrowerStep s bi.borrower p.borrower_id with
      | error m =>
          simp only [hw] at hupd
          simp at hupd
      | ok nw =>
          simp only [hw] at hupd
          simp only [Prod.mk.injEq, ApiOut.success.injEq] at hupd
          obtain ⟨⟨-, hbi⟩, hs⟩ := hupd
          exact ⟨nb, nw, rfl, rfl, hbi.symm⟩

/-- Decomposition of a successful update_book run: both foreign-key
steps resolved against the pre-update row, and the resulting row is
the merge-patch, with the genre-linking loop run exactly when
genre_ids is present. -/
theorem update_book_success_shape (s : Store) (bid : Nat) (b : Book)
    (p : BookUpdateSchema) (b' : Book) (s' : Store)
    (hfound : getAssoc s.books bid = some b)
    (hupd : update_book s bid p = (.success 200 b', s')) :
    ∃ na nl,
      fkStep s.authors p.author_id b.author ("Author") = .ok na ∧
      fkStep s.languages p.language_id b.language ("Language") = .ok nl ∧
      (p.genre_ids = none →
        b' = { bookApplyScalars b p.title p.summary p.isbn with
               author := na, language := nl }) ∧
      (∀ gids, p.genre_ids = some gids →
        ∃ s2, addGenreList 200 s2 bid
            { bookApplyScalars b p.title p.summary p.isbn with
              author := na, language := nl, genre := [] } gids
          = (.success 200 b', s')) := by
  unfold update_book at hupd
  simp only [hfound] at hupd
  cases ha : fkStep s.authors p.author_id
      (bookApplyScalars b p.title p.summary p.isbn).author ("Author") with
  | error m =>
      simp only [ha] at hupd
      simp at hupd
  | ok na =>
      simp only [ha] at hupd
      simp only [bookApplyScalars_language] at hupd
      cases hl : fkStep s.languages p.language_id b.language ("Language") with
      | error m =>
          simp only [hl] at hupd
          simp at hupd
      | ok nl =>
          simp only [hl] at hupd
          have ha' : fkStep s.authors p.author_id b.author ("Author") = .ok na := by
            rw [← bookApplyScalars_author b p.title p.summary p.isbn]
            exact ha
          refine ⟨na, nl, ha', rfl, ?_, ?_⟩
          · intro hg
            simp only [hg] at hupd
            simp only [Prod.mk.injEq, ApiOut.success.injEq] at hupd
            exact hupd.1.2.symm
          · intro gids hg
            simp only [hg] at hupd
            exact ⟨_, hupd⟩

/-- Claim C10: mark_returned evaluates the can_mark_returned
permission before parsing the instance identifier or looking the
instance up, so an authenticated caller without it gets 403 for every
identifier — malformed and unknown tokens included — and the store is
unchanged. -/
theorem mark_returned_checks_permission_first (s : Store) (tid : String) :
    mark_returned false s tid =
      (.failure 403 ("You don\x27t have permission to mark books as returned"), s) := rfl

/-- Claim C7: on GET /bookinstances/{id}, a string that is not a
well-formed instance token yields 404 — the same error kind as an
unknown but well-formed token — and every outcome of the handler is
200 or 404, never a server error or a distinct bad-request kind. -/
theorem get_bookinstance_notfound_kinds (s : Store) (tid : String) :
    (parseUUID tid = none →
      get_bookinstance s tid = .failure 404 ("Invalid UUID format")) ∧
    (∀ uid, parseUUID tid = some uid → getAssoc s.bookinstances uid = none →
      get_bookinstance s tid = .failure 404 ("Book instance not found")) ∧
    (respStatus (get_bookinstance s tid) = 200 ∨
     respStatus (get_bookinstance s tid) = 404) := by
  refine ⟨fun h => by simp [get_bookinstance, h],
          fun uid h1 h2 => by simp [get_bookinstance, h1, h2], ?_⟩
  unfold get_bookinstance
  cases hp : parseUUID tid with
  | none => simp [hp, respStatus]
  | some uid =>
      cases hf : getAssoc s.bookinstances uid with
      | none => simp [hp, hf, respStatus]
      | some bi => simp [hp, hf, respStatus]

/-- Witness for claim C7 at a concrete malformed token. -/
theorem get_bookinstance_notfound_kinds_witness :
    get_bookinstance storeW ("zzz") = .failure 404 ("Invalid UUID format") :=
  (get_bookinstance_notfound_kinds storeW ("zzz")).1 (by decide)

/-- Counterexample to claim C2: on PUT /bookinstances/{uuid} a
malformed token is answered with status 404, not the 400 the claim
requires. -/
theorem update_bookinstance_malformed_is_404_cex :
    (update_bookinstance ({} : Store) ("not-a-uuid") ({} : BookInstanceUpdateSchema)).1
      = ApiOut.failure 404 ("Invalid UUID format") ∧
    respStatus (update_bookinstance ({} : Store) ("not-a-uuid")
      ({} : BookInstanceUpdateSchema)).1 ≠ 400 := by
  exact ⟨rfl, by decide⟩

/-- Claim C2 (amended): on PUT /bookinstances/{uuid} a malformed token
and a well-formed token of no stored instance both produce 404 (the
same kind for both), and every handler outcome is 200, 400 or 404. -/
theorem update_bookinstance_notfound_kinds (s : Store) (tid : String)
    (p : BookInstanceUpdateSchema) :
    (parseUUID tid = none →
      update_bookinstance s tid p = (.failure 404 ("Invalid UUID format"), s)) ∧
    (∀ uid, parseUUID tid = some uid → getAssoc s.bookinstances uid = none →
      update_bookinstance s tid p = (.failure 404 ("Book instance not found"), s)) ∧
    (respStatus (update_bookinstance s tid p).1 = 200 ∨
     respStatus (update_bookinstance s tid p).1 = 400 ∨
     respStatus (update_bookinstance s tid p).1 = 404) := by
  refine ⟨fun h => by simp [update_bookinstance, h],
          fun uid h1 h2 => by simp [update_bookinstance, h1, h2], ?_⟩
  unfold update_bookinstance
  cases hp : parseUUID tid with
  | none => simp [hp, respStatus]
  | some uid =>
      cases hf : getAssoc s.bookinstances uid with
      | none => simp [hp, hf, respStatus]
      | some bi =>
          cases hb : biBookStep s bi.book p.book_id with
          | error m => simp [hp, hf, hb, respStatus]
          | ok nb =>
              cases hw : biBorrowerStep s bi.borrower p.borrower_id with
              | error m => simp [hp, hf, hb, hw, biApplyScalars_borrower, respStatus]
              | ok nw => simp [hp, hf, hb, hw, biApplyScalars_borrower, respStatus]

/-- Witness for claim C2 (amended) at a concrete unknown token. -/
theorem update_bookinstance_notfound_kinds_witness :
    update_bookinstance storeW ("ffffffff-ffff-ffff-ffff-ffffffffffff")
        ({} : BookInstanceUpdateSchema)
      = (.failure 404 ("Book instance not found"), storeW) :=
  (update_bookinstance_notfound_kinds storeW
      ("ffffffff-ffff-ffff-ffff-ffffffffffff") ({} : BookInstanceUpdateSchema)).2.1
    ("ffffffff-ffff-ffff-ffff-ffffffffffff") (by decide) (by decide)

/-- Claim C8: POST /auth/token mints a token for valid credentials; on
any failed authentication the response is the fixed 401 body, so the
failure output is identical whether the username does not exist or the
password is wrong. -/
theorem get_token_uniform_failure (users : List (Nat × UserRec)) (un pw : String) :
    (∀ uid, authenticate users un pw = some uid →
      get_token users un pw = .success 200 (create_token uid)) ∧
    (authenticate users un pw = none →
      get_token users un pw = .failure 401 ("Invalid username or password")) ∧
    (∀ un2 pw2, authenticate users un pw = none → authenticate users un2 pw2 = none →
      get_token users un pw = get_token users un2 pw2) := by
  refine ⟨fun uid h => by simp [get_token, h],
          fun h => by simp [get_token, h],
          fun un2 pw2 h1 h2 => by simp [get_token, h1, h2]⟩

/-- Witness for claim C8: with one stored user alice, the failure
response for an unknown username equals the one for a wrong
password. -/
theorem get_token_uniform_failure_witness :
    get_token usersW ("bob") ("pw") = get_token usersW ("alice") ("wrong") :=
  (get_token_uniform_failure usersW ("bob") ("pw")).2.2 ("alice") ("wrong")
    (by decide) (by decide)

/-- Claim C3: for an authorized caller and an existing instance,
mark_returned forces status available, clears due_back and borrower
whatever their prior values, persists the result, and a second call
returns the same response and leaves the store exactly as after the
first (idempotence). -/
theorem mark_returned_returns_and_idempotent (s : Store) (tid uid : String)
    (bi : BookInstance)
    (hparse : parseUUID tid = some uid)
    (hfound : getAssoc s.bookinstances uid = some bi) :
    mark_returned true s tid =
      (.success 200 (returnedOf bi), markReturnedStore s uid bi) ∧
    (returnedOf bi).status = "a" ∧
    (returnedOf bi).due_back = none ∧
    (returnedOf bi).borrower = none ∧
    getAssoc (markReturnedStore s uid bi).bookinstances uid = some (returnedOf bi) ∧
    mark_returned true (markReturnedStore s uid bi) tid =
      (.success 200 (returnedOf bi), markReturnedStore s uid bi) := by
  have hlook : getAssoc (markReturnedStore s uid bi).bookinstances uid
      = some (returnedOf bi) := by
    simp [markReturnedStore, getAssoc_setAssoc_self]
  have hidem : returnedOf (returnedOf bi) = returnedOf bi := rfl
  refine ⟨by simp [mark_returned, hparse, hfound], rfl, rfl, rfl, hlook, ?_⟩
  simp [mark_returned, hparse, hlook, hidem, markReturnedStore,
    setAssoc_setAssoc_self, getAssoc_setAssoc_self]

/-- Witness for claim C3 on a concrete on-loan instance. -/
theorem mark_returned_returns_and_idempotent_witness :
    mark_returned true storeW z36 =
      (.success 200 (returnedOf biW), markReturnedStore storeW z36 biW) ∧
    (returnedOf biW).status = "a" ∧
    (returnedOf biW).due_back = none ∧
    (returnedOf biW).borrower = none ∧
    getAssoc (markReturnedStore storeW z36 biW).bookinstances z36 = some (returnedOf biW) ∧
    mark_returned true (markReturnedStore storeW z36 biW) z36 =
      (.success 200 (returnedOf biW), markReturnedStore storeW z36 biW) :=
  mark_returned_returns_and_idempotent storeW z36 z36 biW (by decide) (by decide)

/-- Claim C9: on create, a related-entity id equal to 0 is treated
exactly as an absent id (Python truthiness), for author_id and
language_id of create_book and borrower_id of create_bookinstance; in
particular such a create performs no lookup and stores a null
reference instead of failing. -/
theorem create_zero_fk_treated_as_absent :
    (∀ (s : Store) (fid : Nat) (p : BookCreateSchema),
      create_book s fid { p with author_id := some 0 }
        = create_book s fid { p with author_id := none }) ∧
    (∀ (s : Store) (fid : Nat) (p : BookCreateSchema),
      create_book s fid { p with language_id := some 0 }
        = create_book s fid { p with language_id := none }) ∧
    (∀ (s : Store) (fid : String) (p : BookInstanceCreateSchema),
      create_bookinstance s fid { p with borrower_id := some 0 }
        = create_bookinstance s fid { p with borrower_id := none }) ∧
    (∀ (s : Store) (fid : Nat) (t sm ib : String),
      create_book s fid { title := t, summary := sm, isbn := ib,
                          author_id := some 0, language_id := some 0, genre_ids := [] }
        = (.success 201 { title := t, summary := sm, isbn := ib,
                          author := none, language := none, genre := [] },
           { s with books := (setAssoc s.books fid
               ({ title := t, summary := sm, isbn := ib,
                  author := none, language := none, genre := [] })) })) ∧
    (∀ (s : Store) (fid : String) (bkid : Nat) (imp : String) (b : Book),
      getAssoc s.books bkid = some b →
      create_bookinstance s fid { book_id := bkid, imprint := imp, due_back := none,
                                  borrower_id := some 0, status := "o" }
        = (.success 201 { book := bkid, imprint := imp, due_back := none,
                          borrower := none, status := "o" },
           { s with bookinstances := (setAssoc s.bookinstances fid
               ({ book := bkid, imprint := imp, due_back := none,
                  borrower := none, status := "o" })) })) := by
  refine ⟨fun s fid p => by simp [create_book, fkCreate],
          fun s fid p => by simp [create_book, fkCreate],
          fun s fid p => by simp [create_bookinstance, fkCreate],
          fun s fid t sm ib => by simp [create_book, fkCreate],
          fun s fid bkid imp b h => by simp [create_bookinstance, fkCreate, h]⟩

/-- Witness for claim C9: creating an instance of the stored book with
borrower_id 0 succeeds with a null borrower. -/
theorem create_zero_fk_treated_as_absent_witness :
    create_bookinstance storeW ("11111111-1111-1111-1111-111111111111")
        { book_id := 1, imprint := "Imp", due_back := none,
          borrower_id := some 0, status := "o" }
      = (.success 201 { book := 1, imprint := "Imp", due_back := none,
                        borrower := none, status := "o" },
         { storeW with bookinstances := (setAssoc storeW.bookinstances
             ("11111111-1111-1111-1111-111111111111")
             ({ book := 1, imprint := "Imp", due_back := none,
                borrower := none, status := "o" })) }) :=
  create_zero_fk_treated_as_absent.2.2.2.2 storeW
    ("11111111-1111-1111-1111-111111111111") 1 ("Imp") bookW (by decide)

/-- Claim C1 decided against the code: create_book saves the Book row
before resolving genre_ids, so a genre id that resolves to no Genre is
answered with 400 while the freshly created Book row stays persisted;
the store that held no book now holds one. -/
theorem create_book_persists_despite_genre_error :
    (create_book storeC1 7 payloadC1).1
      = .failure 400 ("Genre with ID 99 not found") ∧
    getAssoc (create_book storeC1 7 payloadC1).2.books 7
      = some { title := "T", summary := "S", isbn := "I",
               author := none, language := none, genre := [] } ∧
    storeC1.books = [] := by decide

/-- Claim C6: on update_bookinstance over an existing instance,
borrower_id 0 clears the borrower, an absent borrower_id leaves it
unchanged, a nonzero borrower_id that resolves sets it, and a nonzero
borrower_id that resolves to no user fails with 400 naming it. -/
theorem update_bookinstance_borrower_three_way (s : Store) (tid uid : String)
    (bi : BookInstance) (p : BookInstanceUpdateSchema)
    (hparse : parseUUID tid = some uid)
    (hfound : getAssoc s.bookinstances uid = some bi) :
    (∀ bi' s', update_bookinstance s tid p = (.success 200 bi', s') →
      (p.borrower_id = some 0 → bi'.borrower = none) ∧
      (p.borrower_id = none → bi'.borrower = bi.borrower) ∧
      (∀ n, p.borrower_id = some n → n ≠ 0 → bi'.borrower = some n)) ∧
    (∀ n, p.borrower_id = some n → n ≠ 0 → getAssoc s.users n = none →
      p.book_id = none →
      update_bookinstance s tid p
        = (.failure 400 (("User with ID ") ++ toString n ++ (" not found")), s)) := by
  constructor
  · intro bi' s' hupd
    obtain ⟨nb, nw, hb, hw, hbi⟩ :=
      update_bookinstance_success_shape s tid uid bi p bi' s' hparse hfound hupd
    subst hbi
    refine ⟨?_, ?_, ?_⟩
    · intro hpw
      rw [hpw] at hw
      simp [biBorrowerStep] at hw
      simp [← hw]
    · intro hpw
      rw [hpw] at hw
      simp [biBorrowerStep] at hw
      simp [← hw]
    · intro n hpw hn
      rw [hpw] at hw
      simp [biBorrowerStep, hn] at hw
      cases hu : getAssoc s.users n with
      | none => rw [hu] at hw; simp at hw
      | some u => rw [hu] at hw; simp at hw; simp [← hw]
  · intro n hpw hn hu hbk
    simp [update_bookinstance, hparse, hfound, hbk, hpw, biBookStep,
      biBorrowerStep, biApplyScalars_borrower, hn, hu]

/-- Claim C5: update_book treats genre_ids as replace-the-whole-set:
absent leaves the links untouched; present (empty list included)
clears them and installs exactly the listed genres. -/
theorem update_book_genre_replace (s : Store) (bid : Nat) (b : Book)
    (p : BookUpdateSchema) (b' : Book) (s' : Store)
    (hfound : getAssoc s.books bid = some b)
    (hupd : update_book s bid p = (.success 200 b', s')) :
    (p.genre_ids = none → b'.genre = b.genre) ∧
    (∀ gids, p.genre_ids = some gids → ∀ g, g ∈ b'.genre ↔ g ∈ gids) ∧
    (p.genre_ids = some [] → b'.genre = []) := by
  obtain ⟨na, nl, ha, hl, hnone, hsome⟩ :=
    update_book_success_shape s bid b p b' s' hfound hupd
  refine ⟨?_, ?_, ?_⟩
  · intro hg
    rw [hnone hg]
    simp [bookApplyScalars_genre]
  · intro gids hg g
    obtain ⟨s2, hrun⟩ := hsome gids hg
    have hf := addGenreList_success_fields 200 gids s2 bid _ 200 b' s' hrun
    rw [hf.2.2.2.2.2 g]
    simp
  · intro hg
    obtain ⟨s2, hrun⟩ := hsome [] hg
    have hf := addGenreList_success_fields 200 [] s2 bid _ 200 b' s' hrun
    have hnomem : ∀ g, g ∉ b'.genre := by
      intro g hgmem
      have hx := (hf.2.2.2.2.2 g).mp hgmem
      simp at hx
    exact List.eq_nil_iff_forall_not_mem.mpr hnomem

/-- Claim C4: for every resource kind, updating an existing record
with a partial payload modifies only the fields present in the
payload; every field absent from the payload keeps its pre-update
value (merge-patch, not full replace). -/
theorem update_merge_patch_frame :
    (∀ (s : Store) (aid : Nat) (a : Author) (p : AuthorUpdateSchema)
       (a' : Author) (s' : Store),
      getAssoc s.authors aid = some a →
      update_author s aid p = (.success 200 a', s') →
      (p.first_name = none → a'.first_name = a.first_name) ∧
      (p.last_name = none → a'.last_name = a.last_name) ∧
      (p.date_of_birth = none → a'.date_of_birth = a.date_of_birth) ∧
      (p.date_of_death = none → a'.date_of_death = a.date_of_death)) ∧
    (∀ (s : Store) (gid : Nat) (g : Genre) (p : GenreUpdateSchema)
       (g' : Genre) (s' : Store),
      getAssoc s.genres gid = some g →
      update_genre s gid p = (.success 200 g', s') →
      (p.name = none → g'.name = g.name)) ∧
    (∀ (s : Store) (lid : Nat) (l : Language) (p : LanguageUpdateSchema)
       (l' : Language) (s' : Store),
      getAssoc s.languages lid = some l →
      update_language s lid p = (.success 200 l', s') →
      (p.name = none → l'.name = l.name)) ∧
    (∀ (s : Store) (bid : Nat) (b : Book) (p : BookUpdateSchema)
       (b' : Book) (s' : Store),
      getAssoc s.books bid = some b →
      update_book s bid p = (.success 200 b', s') →
      (p.title = none → b'.title = b.title) ∧
      (p.summary = none → b'.summary = b.summary) ∧
      (p.isbn = none → b'.isbn = b.isbn) ∧
      (p.author_id = none → b'.author = b.author) ∧
      (p.language_id = none → b'.language = b.language) ∧
      (p.genre_ids = none → b'.genre = b.genre)) ∧
    (∀ (s : Store) (tid uid : String) (bi : BookInstance)
       (p : BookInstanceUpdateSchema) (bi' : BookInstance) (s' : Store),
      parseUUID tid = some uid →
      getAssoc s.bookinstances uid = some bi →
      update_bookinstance s tid p = (.success 200 bi', s') →
      (p.book_id = none → bi'.book = bi.book) ∧
      (p.imprint = none → bi'.imprint = bi.imprint) ∧
      (p.due_back = none → bi'.due_back = bi.due_back) ∧
      (p.status = none → bi'.status = bi.status) ∧
      (p.borrower_id = none → bi'.borrower = bi.borrower)) := by
  refine ⟨?_, ?_, ?_, ?_, ?_⟩
  · intro s aid a p a' s' hfound hupd
    unfold update_author at hupd
    simp only [hfound] at hupd
    simp only [Prod.mk.injEq, ApiOut.success.injEq] at hupd
    obtain ⟨⟨-, ha⟩, -⟩ := hupd
    subst ha
    exact authorApplyPatch_frame a p.first_name p.last_name p.date_of_birth p.date_of_death
  · intro s gid g p g' s' hfound hupd
    unfold update_genre at hupd
    simp only [hfound] at hupd
    simp only [Prod.mk.injEq, ApiOut.success.injEq] at hupd
    obtain ⟨⟨-, hg⟩, -⟩ := hupd
    subst hg
    intro hname
    simp [hname]
  · intro s lid l p l' s' hfound hupd
    unfold update_language at hupd
    simp only [hfound] at hupd
    simp only [Prod.mk.injEq, ApiOut.success.injEq] at hupd
    obtain ⟨⟨-, hl⟩, -⟩ := hupd
    subst hl
    intro hname
    simp [hname]
  · intro s bid b p b' s' hfound hupd
    obtain ⟨na, nl, ha, hl, hnone, hsome⟩ :=
      update_book_success_shape s bid b p b' s' hfound hupd
    cases hg : p.genre_ids with
    | none =>
        have hb' := hnone hg
        subst hb'
        refine ⟨?_, ?_, ?_, ?_, ?_, ?_⟩
        · intro hpt; simp [hpt, bookApplyScalars_title]
        · intro hps; simp [hps, bookApplyScalars_summary]
        · intro hpn; simp [hpn, bookApplyScalars_isbn]
        · intro hpa
          rw [hpa] at ha
          simp [fkStep] at ha
          simp [← ha]
        · intro hpl
          rw [hpl] at hl
          simp [fkStep] at hl
          simp [← hl]
        · intro hpg; simp [bookApplyScalars_genre]
    | some gids =>
        obtain ⟨s2, hrun⟩ := hsome gids hg
        have hf := addGenreList_success_fields 200 gids s2 bid _ 200 b' s' hrun
        refine ⟨?_, ?_, ?_, ?_, ?_, ?_⟩
        · intro hpt; rw [hf.1]; simp [hpt, bookApplyScalars_title]
        · intro hps; rw [hf.2.1]; simp [hps, bookApplyScalars_summary]
        · intro hpn; rw [hf.2.2.1]; simp [hpn, bookApplyScalars_isbn]
        · intro hpa
          rw [hf.2.2.2.1]
          rw [hpa] at ha
          simp [fkStep] at ha
          simp [← ha]
        · intro hpl
          rw [hf.2.2.2.2.1]
          rw [hpl] at hl
          simp [fkStep] at hl
          simp [← hl]
        · intro hpg
          simp at hpg
  · intro s tid uid bi p bi' s' hparse hfound hupd
    obtain ⟨nb, nw, hb, hw, hbi⟩ :=
      update_bookinstance_success_shape s tid uid bi p bi' s' hparse hfound hupd
    subst hbi
    refine ⟨?_, ?_, ?_, ?_, ?_⟩
    · intro hpb
      rw [hpb] at hb
      simp [biBookStep] at hb
      simp [biApplyScalars_book, ← hb]
    · intro hpi; simp [hpi, biApplyScalars_imprint]
    · intro hpd; simp [hpd, biApplyScalars_due_back]
    · intro hps; simp [hps, biApplyScalars_status]
    · intro hpw
      rw [hpw] at hw
      simp [biBorrowerStep] at hw
      simp [← hw]

def pC5 : BookUpdateSchema := { genre_ids := some [2] }

def bC5 : Book := { title := "B", summary := "S", isbn := "I", genre := [2] }

def sC5 : Store := { storeW with books := [(1, bC5)] }

def pC6 : BookInstanceUpdateSchema := { borrower_id := some 0 }

def biC6 : BookInstance :=
  { book := 1, imprint := "X", due_back := some 10, borrower := none, status := "o" }

def sC6 : Store := { storeW with bookinstances := [(z36, biC6)] }

def pW : AuthorUpdateSchema := { last_name := some "Doe" }

def aW2 : Author := { first_name := "Jane", last_name := "Doe" }

def sW2 : Store := { storeW with authors := [(1, aW2)] }

/-- Witness for claim C6: borrower_id 0 on the stored on-loan instance
clears its borrower. -/
theorem update_bookinstance_borrower_three_way_witness :
    biC6.borrower = none :=
  ((update_bookinstance_borrower_three_way storeW z36 z36 biW pC6
      (by decide) (by decide)).1 biC6 sC6 (by decide)).1 (by decide)

/-- Witness for claim C5: replacing the stored book's genre links [1]
by [2] removes genre 1 and installs genre 2. -/
theorem update_book_genre_replace_witness :
    (1 ∈ bC5.genre ↔ 1 ∈ [2]) ∧ (2 ∈ bC5.genre ↔ 2 ∈ [2]) :=
  ⟨(update_book_genre_replace storeW 1 bookW pC5 bC5 sC5
      (by decide) (by decide)).2.1 [2] (by decide) 1,
   (update_book_genre_replace storeW 1 bookW pC5 bC5 sC5
      (by decide) (by decide)).2.1 [2] (by decide) 2⟩

/-- Witness for claim C4: updating only last_name of the stored author
leaves first_name as it was. -/
theorem update_merge_patch_frame_witness :
    aW2.first_name = authorW.first_name :=
  (update_merge_patch_frame.1 storeW 1 authorW pW aW2 sW2
      (by decide) (by decide)).1 (by decide)

end LocalLibrary
